import Mathlib

set_option autoImplicit false
set_option linter.unusedVariables false

/-!
Shallow embedding of the layered render-target stack, compositor, clip-mask,
frame state guard, geometry cache, scissor handling and TGA loader of
`src/Backends/RmlUi_Renderer_DX11.cpp`, together with theorems settling the
claims about that backend.

GPU objects are modelled by numeric identifiers; GPU side effects are modelled
as explicit command traces; machine integers are `Nat`/`Int` with explicit
wrap-around where the source relies on it.
-/

/-! ## Layer stack (`RenderInterface_DX11::RenderLayerStack`)

State of the stack: `layersSize` is the `layers_size` field (logical depth),
`rtLayersLen` is `rt_layers.size()` (physically allocated layer render
targets), `ppAlloc.get i` tells whether postprocess target `i` has been
lazily created (`rt_postprocess` holds 4 zeroed entries after the
constructor). -/

structure RenderLayerStack where
  width : Int
  height : Int
  layersSize : Nat
  rtLayersLen : Nat
  ppAlloc : List Bool
  deriving DecidableEq

/-- Fresh stack as produced by the `RenderLayerStack` constructor:
no layers, no allocated layer targets, `rt_postprocess.resize(4)` zeroed. -/
def freshLayerStack : RenderLayerStack :=
  { width := 0, height := 0, layersSize := 0, rtLayersLen := 0
    ppAlloc := List.replicate 4 false }

/-- `GetTopLayerHandle`: asserts `layers_size > 0` and returns
`layers_size - 1`. -/
def RenderLayerStack.GetTopLayerHandle (s : RenderLayerStack) : Nat :=
  s.layersSize - 1

/-- `RenderLayerStack::PushLayer`: grows the physical pool by one render
target when the logical depth equals the pool size (the new entry shares the
first entry depth-stencil), then increments the logical depth and returns the
top handle. -/
def RenderLayerStack.PushLayer (s : RenderLayerStack) : Nat × RenderLayerStack :=
  let s1 := if s.layersSize = s.rtLayersLen then
    { s with rtLayersLen := s.rtLayersLen + 1 } else s
  let s2 := { s1 with layersSize := s1.layersSize + 1 }
  (s2.GetTopLayerHandle, s2)

/-- `RenderLayerStack::PopLayer`: asserts `layers_size > 0` and decrements it;
the underlying surface stays pooled. -/
def RenderLayerStack.PopLayer (s : RenderLayerStack) : RenderLayerStack :=
  { s with layersSize := s.layersSize - 1 }

/-- `RenderLayerStack::DestroyRenderTargets`: destroys every pooled layer
target (`rt_layers.clear()`) and zeroes each postprocess entry (the vector
keeps its length). Asserts `layers_size == 0`. -/
def RenderLayerStack.DestroyRenderTargets (s : RenderLayerStack) : RenderLayerStack :=
  { s with rtLayersLen := 0, ppAlloc := List.replicate s.ppAlloc.length false }

/-- Dimension-check phase of `RenderLayerStack::BeginFrame`: on a size change
the new dimensions are stored and all render targets are destroyed. -/
def RenderLayerStack.BeginFrameResize (s : RenderLayerStack) (new_width new_height : Int) :
    RenderLayerStack :=
  if new_width ≠ s.width ∨ new_height ≠ s.height then
    ({ s with width := new_width, height := new_height }).DestroyRenderTargets
  else s

/-- `RenderLayerStack::BeginFrame`: asserts `layers_size == 0`, runs the
dimension check, then performs one `PushLayer`. -/
def RenderLayerStack.BeginFrame (s : RenderLayerStack) (new_width new_height : Int) :
    RenderLayerStack :=
  ((s.BeginFrameResize new_width new_height).PushLayer).2

/-- `RenderLayerStack::EndFrame`: asserts `layers_size == 1` and pops. -/
def RenderLayerStack.EndFrame (s : RenderLayerStack) : RenderLayerStack :=
  s.PopLayer

/-- `RenderLayerStack::EnsureRenderTargetPostprocess`: lazily creates
postprocess target `index` when it does not exist yet. -/
def RenderLayerStack.EnsureRenderTargetPostprocess (s : RenderLayerStack) (index : Nat) :
    RenderLayerStack :=
  { s with ppAlloc := s.ppAlloc.set index true }

theorem RenderLayerStack.PushLayer_snd_layersSize (s : RenderLayerStack) :
    ((s.PushLayer).2).layersSize = s.layersSize + 1 := by
  unfold RenderLayerStack.PushLayer
  by_cases h : s.layersSize = s.rtLayersLen <;> simp [h]

theorem RenderLayerStack.PushLayer_fst (s : RenderLayerStack) :
    (s.PushLayer).1 = s.layersSize := by
  unfold RenderLayerStack.PushLayer RenderLayerStack.GetTopLayerHandle
  by_cases h : s.layersSize = s.rtLayersLen <;> simp [h]

/-! ## Push/pop sequences (claim C2) -/

inductive LayerOp
  | push
  | pop
  deriving DecidableEq

def applyLayerOp (s : RenderLayerStack) : LayerOp → RenderLayerStack
  | .push => (s.PushLayer).2
  | .pop => s.PopLayer

def applyLayerOps (s : RenderLayerStack) : List LayerOp → RenderLayerStack
  | [] => s
  | op :: rest => applyLayerOps (applyLayerOp s op) rest

/-- A sequence respects nesting from depth `d` when no pop underflows. -/
def wellNested (d : Nat) : List LayerOp → Bool
  | [] => true
  | .push :: rest => wellNested (d + 1) rest
  | .pop :: rest => decide (1 ≤ d) && wellNested (d - 1) rest

def countPush : List LayerOp → Nat
  | [] => 0
  | .push :: rest => countPush rest + 1
  | .pop :: rest => countPush rest

def countPop : List LayerOp → Nat
  | [] => 0
  | .push :: rest => countPop rest
  | .pop :: rest => countPop rest + 1

theorem applyLayerOps_layersSize :
    ∀ (ops : List LayerOp) (s : RenderLayerStack),
      wellNested s.layersSize ops = true →
      (applyLayerOps s ops).layersSize + countPop ops = s.layersSize + countPush ops := by
  intro ops
  induction ops with
  | nil => intro s h; simp [applyLayerOps, countPush, countPop]
  | cons op rest ih =>
    intro s h
    cases op with
    | push =>
      have hw : wellNested ((s.PushLayer).2).layersSize rest = true := by
        rw [RenderLayerStack.PushLayer_snd_layersSize]
        exact h
      have := ih ((s.PushLayer).2) hw
      rw [RenderLayerStack.PushLayer_snd_layersSize] at this
      simp only [applyLayerOps, applyLayerOp, countPush, countPop]
      omega
    | pop =>
      simp only [wellNested, Bool.and_eq_true, decide_eq_true_eq] at h
      obtain ⟨hd, hw⟩ := h
      have hls : (s.PopLayer).layersSize = s.layersSize - 1 := rfl
      have := ih s.PopLayer (by rw [hls]; exact hw)
      rw [hls] at this
      simp only [applyLayerOps, applyLayerOp, countPush, countPop]
      omega

/-- Claim C2: for every PushLayer/PopLayer sequence that respects nesting, the
layer-stack depth after the sequence equals the starting depth plus the number
of pushes minus the number of pops; whenever depth >= 1, GetTopLayerHandle
returns depth - 1; and a push returns the handle equal to the new depth minus
one (handles are assigned monotonically as stack positions 0..depth-1). -/
theorem c2_layer_stack_depth (s : RenderLayerStack) (ops : List LayerOp)
    (hnest : wellNested s.layersSize ops = true)
    (hpos : 1 ≤ (applyLayerOps s ops).layersSize) :
    ((applyLayerOps s ops).layersSize : Int)
        = (s.layersSize : Int) + countPush ops - countPop ops
    ∧ (applyLayerOps s ops).GetTopLayerHandle = (applyLayerOps s ops).layersSize - 1
    ∧ (s.PushLayer).1 = s.layersSize := by
  refine ⟨?_, rfl, RenderLayerStack.PushLayer_fst s⟩
  have := applyLayerOps_layersSize ops s hnest
  omega

def c2ExState : RenderLayerStack :=
  { width := 800, height := 600, layersSize := 0, rtLayersLen := 0
    ppAlloc := List.replicate 4 false }

def c2ExOps : List LayerOp := [.push, .push, .pop]

theorem c2_layer_stack_depth_witness :
    wellNested c2ExState.layersSize c2ExOps = true
    ∧ 1 ≤ (applyLayerOps c2ExState c2ExOps).layersSize
    ∧ (((applyLayerOps c2ExState c2ExOps).layersSize : Int)
          = (c2ExState.layersSize : Int) + countPush c2ExOps - countPop c2ExOps
        ∧ (applyLayerOps c2ExState c2ExOps).GetTopLayerHandle
            = (applyLayerOps c2ExState c2ExOps).layersSize - 1
        ∧ (c2ExState.PushLayer).1 = c2ExState.layersSize) :=
  ⟨by decide, by decide, c2_layer_stack_depth c2ExState c2ExOps (by decide) (by decide)⟩

/-! ## Whole-frame operation sequences (claim C5) -/

inductive FrameOp
  | push
  | pop
  | beginFrame (w h : Int)
  | endFrame
  | ensurePostprocess (index : Nat)
  deriving DecidableEq

def stepFrame (s : RenderLayerStack) : FrameOp → RenderLayerStack
  | .push => (s.PushLayer).2
  | .pop => s.PopLayer
  | .beginFrame w h => s.BeginFrame w h
  | .endFrame => s.EndFrame
  | .ensurePostprocess i => s.EnsureRenderTargetPostprocess i

/-- The assertions the source places on each operation. -/
def frameOpOk (s : RenderLayerStack) : FrameOp → Bool
  | .push => true
  | .pop => decide (1 ≤ s.layersSize)
  | .beginFrame _ _ => decide (s.layersSize = 0)
  | .endFrame => decide (s.layersSize = 1)
  | .ensurePostprocess i => decide (i < s.ppAlloc.length)

def applyFrameOps (s : RenderLayerStack) : List FrameOp → RenderLayerStack
  | [] => s
  | op :: rest => applyFrameOps (stepFrame s op) rest

def okFrameTrace (s : RenderLayerStack) : List FrameOp → Bool
  | [] => true
  | op :: rest => frameOpOk s op && okFrameTrace (stepFrame s op) rest

/-- Historical maximum concurrent layer depth along a trace (the depth of the
initial state and of every state reached after an operation). -/
def histMaxDepth (s : RenderLayerStack) : List FrameOp → Nat
  | [] => s.layersSize
  | op :: rest => max s.layersSize (histMaxDepth (stepFrame s op) rest)

/-- A `BeginFrame` whose dimensions differ from the stored ones. -/
def isResizingBegin (s : RenderLayerStack) : FrameOp → Bool
  | .beginFrame w h => decide (w ≠ s.width ∨ h ≠ s.height)
  | _ => false

theorem stepFrame_rtLayersLen_le (s : RenderLayerStack) (op : FrameOp) :
    (stepFrame s op).rtLayersLen ≤ max s.rtLayersLen ((stepFrame s op).layersSize) := by
  cases op with
  | push =>
    simp only [stepFrame, RenderLayerStack.PushLayer]
    by_cases h : s.layersSize = s.rtLayersLen <;> simp [h]
  | pop => simp [stepFrame, RenderLayerStack.PopLayer]
  | endFrame => simp [stepFrame, RenderLayerStack.EndFrame, RenderLayerStack.PopLayer]
  | ensurePostprocess i => simp [stepFrame, RenderLayerStack.EnsureRenderTargetPostprocess]
  | beginFrame w h =>
    simp only [stepFrame, RenderLayerStack.BeginFrame, RenderLayerStack.BeginFrameResize,
      RenderLayerStack.DestroyRenderTargets, RenderLayerStack.PushLayer]
    by_cases hr : w ≠ s.width ∨ h ≠ s.height
    · simp only [hr, if_pos]
      by_cases h : s.layersSize = 0 <;> simp [h]
    · simp only [hr, if_neg, if_false]
      by_cases h : s.layersSize = s.rtLayersLen <;> simp [h]

theorem histMaxDepth_ge (ops : List FrameOp) (s : RenderLayerStack) :
    s.layersSize ≤ histMaxDepth s ops := by
  cases ops with
  | nil => exact Nat.le_refl _
  | cons op rest => exact Nat.le_max_left _ _

theorem applyFrameOps_rtLayersLen_le :
    ∀ (ops : List FrameOp) (s : RenderLayerStack),
      (applyFrameOps s ops).rtLayersLen ≤ max s.rtLayersLen (histMaxDepth s ops) := by
  intro ops
  induction ops with
  | nil => intro s; exact Nat.le_max_left _ _
  | cons op rest ih =>
    intro s
    have h1 := ih (stepFrame s op)
    have h2 := stepFrame_rtLayersLen_le s op
    have h3 := histMaxDepth_ge rest (stepFrame s op)
    simp only [applyFrameOps, histMaxDepth]
    omega

theorem RenderLayerStack.PushLayer_rtLayersLen_ge (s : RenderLayerStack) :
    s.rtLayersLen ≤ ((s.PushLayer).2).rtLayersLen := by
  unfold RenderLayerStack.PushLayer
  by_cases h : s.layersSize = s.rtLayersLen <;> simp [h]

theorem stepFrame_no_shrink_of_not_resizing (s : RenderLayerStack) (op : FrameOp)
    (hnr : isResizingBegin s op = false) :
    s.rtLayersLen ≤ (stepFrame s op).rtLayersLen := by
  cases op with
  | push => exact RenderLayerStack.PushLayer_rtLayersLen_ge s
  | pop => exact Nat.le_refl _
  | endFrame => exact Nat.le_refl _
  | ensurePostprocess i => exact Nat.le_refl _
  | beginFrame w h =>
    simp only [isResizingBegin, decide_eq_false_iff_not] at hnr
    simp only [stepFrame, RenderLayerStack.BeginFrame, RenderLayerStack.BeginFrameResize]
    rw [if_neg hnr]
    exact RenderLayerStack.PushLayer_rtLayersLen_ge s

theorem stepFrame_no_shrink_of_active (s : RenderLayerStack) (op : FrameOp)
    (hact : 1 ≤ s.layersSize) (hok : frameOpOk s op = true) :
    s.rtLayersLen ≤ (stepFrame s op).rtLayersLen := by
  cases op with
  | push => exact RenderLayerStack.PushLayer_rtLayersLen_ge s
  | pop => exact Nat.le_refl _
  | endFrame => exact Nat.le_refl _
  | ensurePostprocess i => exact Nat.le_refl _
  | beginFrame w h =>
    exfalso
    simp only [frameOpOk, decide_eq_true_eq] at hok
    omega

/-- Claim C5: starting from a fresh stack, the number of physically allocated
layer render targets never exceeds the historical maximum concurrent layer
depth; no operation shrinks the pool while a frame is active (depth >= 1), nor
does any operation other than a BeginFrame with changed dimensions; and a
BeginFrame whose width or height differs (entered with depth == 0) first
destroys every pooled layer target and every postprocess surface and only then
pushes the base layer. -/
theorem c5_pool_invariants
    (ops : List FrameOp) (s0 : RenderLayerStack) (hfresh : s0.rtLayersLen = 0)
    (s1 : RenderLayerStack) (op1 : FrameOp)
    (hactive : 1 ≤ s1.layersSize) (hok1 : frameOpOk s1 op1 = true)
    (s2 : RenderLayerStack) (op2 : FrameOp) (hnr : isResizingBegin s2 op2 = false)
    (s3 : RenderLayerStack) (w h : Int) (hdiff : w ≠ s3.width ∨ h ≠ s3.height) :
    (applyFrameOps s0 ops).rtLayersLen ≤ histMaxDepth s0 ops
    ∧ s1.rtLayersLen ≤ (stepFrame s1 op1).rtLayersLen
    ∧ s2.rtLayersLen ≤ (stepFrame s2 op2).rtLayersLen
    ∧ (s3.BeginFrameResize w h).rtLayersLen = 0
    ∧ (s3.BeginFrameResize w h).ppAlloc = List.replicate s3.ppAlloc.length false
    ∧ s3.BeginFrame w h = ((s3.BeginFrameResize w h).PushLayer).2 := by
  refine ⟨?_, stepFrame_no_shrink_of_active s1 op1 hactive hok1,
    stepFrame_no_shrink_of_not_resizing s2 op2 hnr, ?_, ?_, rfl⟩
  · have := applyFrameOps_rtLayersLen_le ops s0
    omega
  · simp [RenderLayerStack.BeginFrameResize, hdiff, RenderLayerStack.DestroyRenderTargets]
  · simp [RenderLayerStack.BeginFrameResize, hdiff, RenderLayerStack.DestroyRenderTargets]

def c5ExOps : List FrameOp :=
  [.beginFrame 800 600, .push, .ensurePostprocess 0, .pop, .endFrame]

def c5ExActive : RenderLayerStack :=
  { width := 800, height := 600, layersSize := 2, rtLayersLen := 2
    ppAlloc := List.replicate 4 false }

theorem c5_pool_invariants_witness :
    freshLayerStack.rtLayersLen = 0
    ∧ 1 ≤ c5ExActive.layersSize
    ∧ frameOpOk c5ExActive FrameOp.push = true
    ∧ isResizingBegin c5ExActive FrameOp.pop = false
    ∧ ((1 : Int) ≠ c5ExActive.width ∨ (1 : Int) ≠ c5ExActive.height)
    ∧ ((applyFrameOps freshLayerStack c5ExOps).rtLayersLen
          ≤ histMaxDepth freshLayerStack c5ExOps
        ∧ c5ExActive.rtLayersLen ≤ (stepFrame c5ExActive FrameOp.push).rtLayersLen
        ∧ c5ExActive.rtLayersLen ≤ (stepFrame c5ExActive FrameOp.pop).rtLayersLen
        ∧ (c5ExActive.BeginFrameResize 1 1).rtLayersLen = 0
        ∧ (c5ExActive.BeginFrameResize 1 1).ppAlloc
            = List.replicate c5ExActive.ppAlloc.length false
        ∧ c5ExActive.BeginFrame 1 1 = ((c5ExActive.BeginFrameResize 1 1).PushLayer).2) :=
  ⟨by decide, by decide, by decide, by decide, by decide,
    c5_pool_invariants c5ExOps freshLayerStack (by decide)
      c5ExActive FrameOp.push (by decide) (by decide)
      c5ExActive FrameOp.pop (by decide)
      c5ExActive 1 1 (by decide)⟩

/-! ## Compiled filters and the compositor (claims C1, C10) -/

structure Vec4Q where
  x : ℚ
  y : ℚ
  z : ℚ
  w : ℚ
  deriving DecidableEq

structure Mat4Q where
  row0 : Vec4Q
  row1 : Vec4Q
  row2 : Vec4Q
  row3 : Vec4Q
  deriving DecidableEq

def dot4 (a b : Vec4Q) : ℚ :=
  a.x * b.x + a.y * b.y + a.z * b.z + a.w * b.w

def mat4MulVec (m : Mat4Q) (v : Vec4Q) : Vec4Q :=
  { x := dot4 m.row0 v, y := dot4 m.row1 v, z := dot4 m.row2 v, w := dot4 m.row3 v }

/-- `FilterType` tag of the `CompiledFilter` tagged union. -/
inductive FilterType
  | Invalid
  | Passthrough
  | Blur
  | DropShadow
  | ColorMatrix
  | MaskImage
  deriving DecidableEq

/-- `CompiledFilter` value object; float parameters are modelled as exact
rationals. -/
structure CompiledFilter where
  type : FilterType
  blend_factor : ℚ
  sigma : ℚ
  offsetX : ℚ
  offsetY : ℚ
  colorR : ℚ
  colorG : ℚ
  colorB : ℚ
  colorA : ℚ
  color_matrix : Mat4Q
  deriving DecidableEq

def zeroFilter : CompiledFilter :=
  { type := .Invalid, blend_factor := 0, sigma := 0, offsetX := 0, offsetY := 0
    colorR := 0, colorG := 0, colorB := 0, colorA := 0
    color_matrix := ⟨⟨0,0,0,0⟩, ⟨0,0,0,0⟩, ⟨0,0,0,0⟩, ⟨0,0,0,0⟩⟩ }

/-- The color matrix built by the `grayscale` branch of
`RenderInterface_DX11::CompileFilter` (rows as written in the source, with
the float literals 0.2126f, 0.7152f, 0.0722f as exact decimals). -/
def grayscaleColorMatrix (value : ℚ) : Mat4Q :=
  let rev_value := 1 - value
  let gx := value * (2126 / 10000)
  let gy := value * (7152 / 10000)
  let gz := value * (722 / 10000)
  { row0 := ⟨gx + rev_value, gy, gz, 0⟩
    row1 := ⟨gx, gy + rev_value, gz, 0⟩
    row2 := ⟨gx, gy, gz + rev_value, 0⟩
    row3 := ⟨0, 0, 0, 1⟩ }

/-- The `grayscale` branch of `RenderInterface_DX11::CompileFilter`:
type tag `ColorMatrix` with the grayscale color matrix. -/
def CompileFilterGrayscale (value : ℚ) : CompiledFilter :=
  { zeroFilter with type := .ColorMatrix, color_matrix := grayscaleColorMatrix value }

/-- Shader program identifiers (subset of the `ProgramId` enum). -/
inductive ProgramId
  | Color
  | Texture
  | Passthrough
  deriving DecidableEq

/-- Abstract GPU commands issued by the compositor paths of the renderer.
`ApplyFilterPass` is the command a filter-rendering pass would issue; the
source never issues it (`RenderFilters` is commented out). -/
inductive GpuCommand
  | ResolveToPostprocessPrimary (source_layer : Nat)
  | OMSetRenderTargetsLayer (layer : Nat)
  | BindPostprocessPrimary
  | UseProgram (program : ProgramId)
  | SetBlendDisable
  | SetBlendEnable
  | DrawFullscreenQuad
  | ClearLayerColor (layer : Nat) (r g b a : ℚ)
  | ApplyFilterPass (f : CompiledFilter)
  deriving DecidableEq

inductive BlendMode
  | Blend
  | Replace
  deriving DecidableEq

/-- Command trace of `RenderInterface_DX11::CompositeLayers` (`top` is the
current `GetTopLayerHandle()` of the layer stack). The filter-rendering step
between the blit and the destination draw is absent in the source: the
`RenderFilters(filters)` call is commented out behind a `@TODO`, so `filters`
is never consulted. -/
def CompositeLayers (top source_handle destination_handle : Nat)
    (blend_mode : BlendMode) (filters : List CompiledFilter) : List GpuCommand :=
  [.ResolveToPostprocessPrimary source_handle]
  ++ [.OMSetRenderTargetsLayer destination_handle, .BindPostprocessPrimary,
      .UseProgram .Passthrough]
  ++ (if blend_mode = .Replace then [.SetBlendDisable] else [])
  ++ [.DrawFullscreenQuad]
  ++ (if blend_mode = .Replace then [.SetBlendEnable] else [])
  ++ (if destination_handle ≠ top then [.OMSetRenderTargetsLayer top] else [])

/-- Modelled from the spec: per-pixel effect of one compiled filter on
premultiplied color (the filter shader passes are not implemented in the
source; the spec defines `ColorMatrix` as a 4x4 transform applied to the
premultiplied color, which is all this claim needs). -/
def applyFilterToPixel (f : CompiledFilter) (p : Vec4Q) : Vec4Q :=
  match f.type with
  | .ColorMatrix => mat4MulVec f.color_matrix p
  | _ => p

/-- Premultiplied-alpha source-over blending (src ONE, dst INV_SRC_ALPHA), the
configuration of `m_blend_state_enable`. -/
def premultipliedOver (src dst : Vec4Q) : Vec4Q :=
  { x := src.x + dst.x * (1 - src.w)
    y := src.y + dst.y * (1 - src.w)
    z := src.z + dst.z * (1 - src.w)
    w := src.w + dst.w * (1 - src.w) }

/-- Per-pixel state while replaying a compositor trace: contents of the
postprocess primary buffer and of the destination pixel, plus the blend
toggle. -/
structure PixelPipelineState where
  pp : Vec4Q
  dest : Vec4Q
  blendEnabled : Bool
  deriving DecidableEq

/-- Modelled from the spec: per-pixel meaning of each abstract GPU command
(`source_pixel` is the value of the source layer at the pixel). -/
def execGpuCommandOnPixel (source_pixel : Vec4Q) (st : PixelPipelineState) :
    GpuCommand → PixelPipelineState
  | .ResolveToPostprocessPrimary _ => { st with pp := source_pixel }
  | .ApplyFilterPass f => { st with pp := applyFilterToPixel f st.pp }
  | .SetBlendDisable => { st with blendEnabled := false }
  | .SetBlendEnable => { st with blendEnabled := true }
  | .DrawFullscreenQuad =>
      { st with dest := if st.blendEnabled then premultipliedOver st.pp st.dest else st.pp }
  | _ => st

def runTraceOnPixel (source_pixel : Vec4Q) (st : PixelPipelineState)
    (cmds : List GpuCommand) : PixelPipelineState :=
  cmds.foldl (execGpuCommandOnPixel source_pixel) st

/-- Claim C1: false on the code. `CompositeLayers` blits the source to the
postprocess primary buffer and draws it into the destination, but never runs
the filters: the trace is identical to the empty-filter trace, so compositing
a fully red opaque premultiplied pixel (1,0,0,1) through a grayscale(1.0)
filter leaves it (1,0,0,1) instead of the luma-weighted gray
(0.2126, 0.2126, 0.2126, 1) that applying the compiled grayscale color matrix
would produce. -/
theorem c1_composite_filters_never_run :
    (∀ (top source destination : Nat) (blend : BlendMode)
        (filters : List CompiledFilter),
      CompositeLayers top source destination blend filters
        = CompositeLayers top source destination blend [])
    ∧ (runTraceOnPixel ⟨1, 0, 0, 1⟩ ⟨⟨0, 0, 0, 0⟩, ⟨0, 0, 0, 0⟩, true⟩
        (CompositeLayers 0 0 0 .Blend [CompileFilterGrayscale 1])).dest
        = ⟨1, 0, 0, 1⟩
    ∧ applyFilterToPixel (CompileFilterGrayscale 1) ⟨1, 0, 0, 1⟩
        = ⟨2126 / 10000, 2126 / 10000, 2126 / 10000, 1⟩
    ∧ (⟨1, 0, 0, 1⟩ : Vec4Q) ≠ ⟨2126 / 10000, 2126 / 10000, 2126 / 10000, 1⟩ := by
  refine ⟨fun top source destination blend filters => rfl, ?_, ?_, ?_⟩
  · have htrace : CompositeLayers 0 0 0 .Blend [CompileFilterGrayscale 1]
        = [.ResolveToPostprocessPrimary 0, .OMSetRenderTargetsLayer 0,
           .BindPostprocessPrimary, .UseProgram .Passthrough, .DrawFullscreenQuad] := rfl
    rw [htrace]
    norm_num [runTraceOnPixel, List.foldl_cons, List.foldl_nil, execGpuCommandOnPixel,
      premultipliedOver, Vec4Q.mk.injEq]
  · simp only [applyFilterToPixel, CompileFilterGrayscale, grayscaleColorMatrix, zeroFilter,
      mat4MulVec, dot4]
    norm_num
  · simp only [ne_eq, Vec4Q.mk.injEq]
    norm_num

/-- Command trace of the interface-level `RenderInterface_DX11::PushLayer`:
push on the layer stack, bind the new top layer, clear its color to
transparent black. -/
def RenderInterface_PushLayer (s : RenderLayerStack) :
    Nat × RenderLayerStack × List GpuCommand :=
  let r := s.PushLayer
  (r.1, r.2,
    [.OMSetRenderTargetsLayer (r.2).GetTopLayerHandle,
     .ClearLayerColor (r.2).GetTopLayerHandle 0 0 0 0])

/-- Claim C10: after every interface-level PushLayer, the new top layer
(which is the layer just pushed, handle = old depth) is bound as the active
render target and its color is cleared to transparent black (0,0,0,0),
regardless of what the pooled surface previously held. -/
theorem c10_pushlayer_binds_and_clears (s : RenderLayerStack) :
    (RenderInterface_PushLayer s).1 = s.layersSize
    ∧ ((RenderInterface_PushLayer s).2.1).layersSize = s.layersSize + 1
    ∧ (RenderInterface_PushLayer s).2.2
        = [.OMSetRenderTargetsLayer s.layersSize,
           .ClearLayerColor s.layersSize 0 0 0 0] := by
  have h1 := RenderLayerStack.PushLayer_fst s
  have h2 := RenderLayerStack.PushLayer_snd_layersSize s
  have h3 : ((s.PushLayer).2).GetTopLayerHandle = s.layersSize := by
    unfold RenderLayerStack.GetTopLayerHandle
    omega
  refine ⟨h1, h2, ?_⟩
  simp [RenderInterface_PushLayer, h3]

/-! ## Clip-mask subsystem (claim C4) -/

inductive ClipMaskOperation
  | Set
  | SetInverse
  | Intersect
  deriving DecidableEq

/-- The three depth-stencil state objects created in `Init`. -/
inductive StencilStateKind
  | disabled
  | stencilSet
  | stencilIntersect
  deriving DecidableEq

/-- Commands issued on the device context by `RenderToClipMask`. -/
inductive StencilCmd
  | OMSetBlendDisableColor
  | OMSetRenderTargetsTop
  | OMSetDepthStencilState (state : StencilStateKind) (ref : Nat)
  | ClearStencil (value : Nat)
  | DrawGeometry
  | OMSetDepthStencilDisable
  | OMRestoreBlend
  deriving DecidableEq

/-- Command trace of `RenderInterface_DX11::RenderToClipMask`. The local
`stencil_test_value` starts at 0; `Set` assigns 1, `SetInverse` assigns 0, and
`Intersect` merely increments the freshly zeroed local (`+= 1`), so its
reference value is the constant 1. Set/SetInverse clear the stencil buffer of
the active layer to 0 before the geometry draw; Intersect does not clear. -/
def RenderToClipMask (operation : ClipMaskOperation) : List StencilCmd :=
  let p : StencilStateKind × Nat :=
    match operation with
    | .Set => (.stencilSet, 1)
    | .SetInverse => (.stencilSet, 0)
    | .Intersect => (.stencilIntersect, 0 + 1)
  [.OMSetBlendDisableColor, .OMSetRenderTargetsTop,
   .OMSetDepthStencilState p.1 p.2]
  ++ (if operation = .Set ∨ operation = .SetInverse then [.ClearStencil 0] else [])
  ++ [.DrawGeometry, .OMSetDepthStencilDisable, .OMRestoreBlend]

/-- Clip nesting depth reached after a sequence of clip-mask operations: a
Set or SetInverse starts one clip level, every Intersect adds one. -/
def clipDepthStep (depth : Nat) : ClipMaskOperation → Nat
  | .Set => 1
  | .SetInverse => 1
  | .Intersect => depth + 1

def clipNestingDepth (ops : List ClipMaskOperation) : Nat :=
  ops.foldl clipDepthStep 0

/-- The stencil reference value the claim asserts for an operation executed at
clip nesting depth `depth`: 1 for Set, 0 for SetInverse, depth + 1 for
Intersect. -/
def claimedStencilRef (depth : Nat) : ClipMaskOperation → Nat
  | .Set => 1
  | .SetInverse => 0
  | .Intersect => depth + 1

/-- The trace the claim asserts for an operation at nesting depth `depth`:
same command shape, with the reference value of `claimedStencilRef`. -/
def claimedClipMaskTrace (depth : Nat) (operation : ClipMaskOperation) : List StencilCmd :=
  let st : StencilStateKind :=
    match operation with
    | .Set => .stencilSet
    | .SetInverse => .stencilSet
    | .Intersect => .stencilIntersect
  [.OMSetBlendDisableColor, .OMSetRenderTargetsTop,
   .OMSetDepthStencilState st (claimedStencilRef depth operation)]
  ++ (if operation = .Set ∨ operation = .SetInverse then [.ClearStencil 0] else [])
  ++ [.DrawGeometry, .OMSetDepthStencilDisable, .OMRestoreBlend]

/-- Claim C4 counterexample: an Intersect issued after a Set runs at clip
nesting depth 1, so the claim requires stencil reference 2, but the source
always passes reference 1 for Intersect (a fresh local incremented once). -/
theorem c4_intersect_ref_counterexample :
    RenderToClipMask .Intersect
      ≠ claimedClipMaskTrace (clipNestingDepth [ClipMaskOperation.Set]) .Intersect := by
  decide

/-- Claim C4 as amended: Set writes the stencil with reference value 1 and
SetInverse with reference value 0, each preceded by a stencil clear to 0 for
the active layer before the geometry draw; Intersect uses the increment
stencil state with the constant reference value 1 (independent of the clip
nesting depth) and performs no clear. -/
theorem c4_clipmask_traces :
    RenderToClipMask .Set
      = [.OMSetBlendDisableColor, .OMSetRenderTargetsTop,
         .OMSetDepthStencilState .stencilSet 1, .ClearStencil 0,
         .DrawGeometry, .OMSetDepthStencilDisable, .OMRestoreBlend]
    ∧ RenderToClipMask .SetInverse
      = [.OMSetBlendDisableColor, .OMSetRenderTargetsTop,
         .OMSetDepthStencilState .stencilSet 0, .ClearStencil 0,
         .DrawGeometry, .OMSetDepthStencilDisable, .OMRestoreBlend]
    ∧ RenderToClipMask .Intersect
      = [.OMSetBlendDisableColor, .OMSetRenderTargetsTop,
         .OMSetDepthStencilState .stencilIntersect 1,
         .DrawGeometry, .OMSetDepthStencilDisable, .OMRestoreBlend] :=
  ⟨rfl, rfl, rfl⟩

/-! ## Render-target creation (claim C6) -/

inductive RenderTargetAttachment
  | None
  | Depth
  | DepthStencil
  deriving DecidableEq

/-- `Gfx::RenderTargetData`: GPU objects are identifiers. -/
structure RenderTargetData where
  width : Int
  height : Int
  render_target_view : Option Nat
  depth_stencil_view : Option Nat
  render_target_texture : Option Nat
  render_target_shader_resource_view : Option Nat
  owns_depth_stencil_buffer : Bool
  deriving DecidableEq

/-- Result of `Gfx::CreateRenderTarget` together with the resource actions it
performed: how many `AddRef` calls were made on the shared depth-stencil view
and whether a new depth-stencil texture was allocated. -/
structure CreateRenderTargetResult where
  rt : RenderTargetData
  shared_addref_count : Nat
  allocated_depth_stencil : Bool
  deriving DecidableEq

/-- `Gfx::CreateRenderTarget` on the success path (every device-creation call
succeeds; the claim is about successful calls). `fresh_texture`, `fresh_rtv`,
`fresh_srv`, `fresh_dsv` stand for the identities of newly created GPU
objects. With a depth or depth-stencil attachment: a non-null
`shared_depth_stencil_buffer` is reused and AddRef-ed once, otherwise a new
depth-stencil texture and view are created. The source then sets
`owns_depth_stencil_buffer = (shared_depth_stencil_buffer != nullptr)`. -/
def Gfx.CreateRenderTarget (width height samples : Int)
    (attachment : RenderTargetAttachment)
    (shared_depth_stencil_buffer : Option Nat)
    (fresh_texture fresh_rtv fresh_srv fresh_dsv : Nat) : CreateRenderTargetResult :=
  let dsv : Option Nat × Nat × Bool :=
    match attachment, shared_depth_stencil_buffer with
    | .None, _ => (none, 0, false)
    | _, some shared => (some shared, 1, false)
    | _, none => (some fresh_dsv, 0, true)
  { rt :=
      { width := width
        height := height
        render_target_view := some fresh_rtv
        depth_stencil_view := dsv.1
        render_target_texture := some fresh_texture
        render_target_shader_resource_view := some fresh_srv
        owns_depth_stencil_buffer := shared_depth_stencil_buffer.isSome }
    shared_addref_count := dsv.2.1
    allocated_depth_stencil := dsv.2.2 }

/-- Claim C6: partly false on the code. Given a shared depth-stencil view and
a depth-stencil attachment, the created target does reuse that view, AddRef-ed
exactly once, and allocates no new depth-stencil buffer; but the source sets
`owns_depth_stencil_buffer` to `shared != nullptr`, so the flag is true in
exactly the sharing case and false when the target allocates its own buffer,
the inverse of what the claim (and the field name) state. Evaluated at the
failing input: width 8, height 8, samples 0, DepthStencil attachment, shared
view 7. -/
theorem c6_owns_flag_inverted :
    (Gfx.CreateRenderTarget 8 8 0 .DepthStencil (some 7) 100 101 102 103).rt.depth_stencil_view
        = some 7
    ∧ (Gfx.CreateRenderTarget 8 8 0 .DepthStencil (some 7) 100 101 102 103).shared_addref_count
        = 1
    ∧ (Gfx.CreateRenderTarget 8 8 0 .DepthStencil (some 7) 100 101 102 103).allocated_depth_stencil
        = false
    ∧ (Gfx.CreateRenderTarget 8 8 0 .DepthStencil (some 7) 100 101 102
          103).rt.owns_depth_stencil_buffer
        = true
    ∧ (Gfx.CreateRenderTarget 8 8 0 .DepthStencil none 100 101 102 103).allocated_depth_stencil
        = true
    ∧ (Gfx.CreateRenderTarget 8 8 0 .DepthStencil none 100 101 102
          103).rt.owns_depth_stencil_buffer
        = false := by
  decide

/-! ## Scissor regions (claim C7) -/

/-- `Rml::Rectanglei` with corners `p0` (top-left in UI coordinates) and
`p1` (bottom-right). -/
structure Rectanglei where
  p0x : Int
  p0y : Int
  p1x : Int
  p1y : Int
  deriving DecidableEq

def Rectanglei.Left (r : Rectanglei) : Int := r.p0x
def Rectanglei.Top (r : Rectanglei) : Int := r.p0y
def Rectanglei.Bottom (r : Rectanglei) : Int := r.p1y
def Rectanglei.Width (r : Rectanglei) : Int := r.p1x - r.p0x
def Rectanglei.Height (r : Rectanglei) : Int := r.p1y - r.p0y

/-- `Rml::Math::Clamp`. -/
def clampInt (v lo hi : Int) : Int := min (max v lo) hi

/-- `VerticallyFlipped`: flip the vertical axis of the rectangle within a
viewport of the given height. -/
def VerticallyFlipped (rect : Rectanglei) (viewport_height : Int) : Rectanglei :=
  { rect with p0y := viewport_height - rect.p1y, p1y := viewport_height - rect.p0y }

structure D3DRect where
  left : Int
  top : Int
  right : Int
  bottom : Int
  deriving DecidableEq

/-- The `D3D11_RECT` handed to `RSSetScissorRects` by
`RenderInterface_DX11::SetScissor` for a valid region: optional vertical flip,
then `x = Clamp(Left, 0, vw)`, `y = Clamp(vh - Bottom, 0, vh)`, and the right
and bottom edges are `x + Width` and `y + Height`. -/
def SetScissor (region : Rectanglei) (vertically_flip : Bool)
    (viewport_width viewport_height : Int) : D3DRect :=
  let region := if vertically_flip then VerticallyFlipped region viewport_height else region
  let x := clampInt region.Left 0 viewport_width
  let y := clampInt (viewport_height - region.Bottom) 0 viewport_height
  { left := x, top := y, right := x + region.Width, bottom := y + region.Height }

/-- Modelled from the spec: the header declaring the default value of the
`vertically_flip` parameter that `SetScissorRegion` relies on is not under
`src/`; the spec says the rect is internally flipped, so the default is
modelled as `true`. -/
def SetScissorRegion (region : Rectanglei) (viewport_width viewport_height : Int) : D3DRect :=
  SetScissor region true viewport_width viewport_height

/-- A GPU rect lying inside the viewport bounds on all four edges. -/
def rectWithinViewport (r : D3DRect) (viewport_width viewport_height : Int) : Prop :=
  0 ≤ r.left ∧ r.right ≤ viewport_width ∧ 0 ≤ r.top ∧ r.bottom ≤ viewport_height

/-- Claim C7 counterexample: for the region (0,0)-(200,100) in a 100x100
viewport the GPU scissor rect has right edge 200 > 100, so the rect is not
clamped on all of its edges to the viewport bounds. -/
instance (r : D3DRect) (viewport_width viewport_height : Int) :
    Decidable (rectWithinViewport r viewport_width viewport_height) := by
  unfold rectWithinViewport
  infer_instance

theorem c7_scissor_clamp_counterexample :
    ¬ rectWithinViewport (SetScissorRegion ⟨0, 0, 200, 100⟩ 100 100) 100 100 := by
  decide

/-- Claim C7 as amended: the GPU scissor rect keeps the region in the GPU
top-left convention (the vertical flip composed with the final
`vh - Bottom` computation restores the original top edge), clamps only the
left and top edges to the viewport bounds, and derives the right and bottom
edges as left + width and top + height without clamping, so they may exceed
the viewport. -/
theorem c7_scissor_rect_characterization (region : Rectanglei)
    (viewport_width viewport_height : Int) :
    SetScissorRegion region viewport_width viewport_height
      = { left := clampInt region.p0x 0 viewport_width
          top := clampInt region.p0y 0 viewport_height
          right := clampInt region.p0x 0 viewport_width + (region.p1x - region.p0x)
          bottom := clampInt region.p0y 0 viewport_height + (region.p1y - region.p0y) } := by
  show (⟨clampInt region.p0x 0 viewport_width,
         clampInt (viewport_height - (viewport_height - region.p0y)) 0 viewport_height,
         clampInt region.p0x 0 viewport_width + (region.p1x - region.p0x),
         clampInt (viewport_height - (viewport_height - region.p0y)) 0 viewport_height
           + ((viewport_height - region.p0y) - (viewport_height - region.p1y))⟩ : D3DRect)
      = _
  unfold clampInt
  congr 1 <;> omega

/-! ## Frame state guard (claim C3) -/

/-- The `m_previous_d3d_state` snapshot captured by `BeginFrame`. Fields hold
the identities of the captured GPU objects (`none` for a null binding); the
three instance lists hold the non-null shader class instances returned by the
`Get` calls (each `Get` call AddRefs every non-null object it returns).
Scissor rects, viewports, blend factor, sample mask, stencil ref, topology and
buffer offsets are plain values and carry no references. -/
structure PreviousD3DState where
  rastizer_state : Option Nat
  blend_state : Option Nat
  depth_stencil_state : Option Nat
  pixel_shader_shader_resource : Option Nat
  pixel_shader_sampler : Option Nat
  pixel_shader : Option Nat
  pixel_shader_instances : List Nat
  vertex_shader : Option Nat
  vertex_shader_instances : List Nat
  vertex_shader_constant_buffer : Option Nat
  geometry_shader : Option Nat
  geometry_shader_instances : List Nat
  index_buffer : Option Nat
  vertex_buffer : Option Nat
  input_layout : Option Nat
  deriving DecidableEq

def optRefs : Option Nat → List Nat
  | none => []
  | some i => [i]

/-- References AddRef-ed during the `BeginFrame` capture block, in the order
of the `Get` calls. -/
def capturedReferences (s : PreviousD3DState) : List Nat :=
  optRefs s.rastizer_state ++ optRefs s.blend_state ++ optRefs s.depth_stencil_state
  ++ optRefs s.pixel_shader_shader_resource ++ optRefs s.pixel_shader_sampler
  ++ optRefs s.pixel_shader ++ s.pixel_shader_instances
  ++ optRefs s.vertex_shader ++ s.vertex_shader_instances
  ++ optRefs s.vertex_shader_constant_buffer
  ++ optRefs s.geometry_shader ++ s.geometry_shader_instances
  ++ optRefs s.index_buffer ++ optRefs s.vertex_buffer ++ optRefs s.input_layout

/-- One step of the restore block at the end of `EndFrame`: either a context
`Set` call that rebinds the listed captured objects, or a `Release` of one
captured reference. -/
inductive RestoreAction
  | rebind (ids : List Nat)
  | releaseRef (id : Nat)
  deriving DecidableEq

def optReleases : Option Nat → List RestoreAction
  | none => []
  | some i => [.releaseRef i]

/-- The restore block of `RenderInterface_DX11::EndFrame`, statement by
statement: every captured binding is restored, and a captured non-null
reference is released right after the `Set` call that restored it, except
that the vertex-shader class instances are released only after `GSSetShader`
and the geometry-shader class instances are never released at all. -/
def EndFrameRestoreTrace (s : PreviousD3DState) : List RestoreAction :=
  [.rebind []]
  ++ [.rebind []]
  ++ [.rebind (optRefs s.rastizer_state)] ++ optReleases s.rastizer_state
  ++ [.rebind (optRefs s.blend_state)] ++ optReleases s.blend_state
  ++ [.rebind (optRefs s.depth_stencil_state)] ++ optReleases s.depth_stencil_state
  ++ [.rebind (optRefs s.pixel_shader_shader_resource)]
  ++ optReleases s.pixel_shader_shader_resource
  ++ [.rebind (optRefs s.pixel_shader_sampler)] ++ optReleases s.pixel_shader_sampler
  ++ [.rebind (optRefs s.pixel_shader ++ s.pixel_shader_instances)]
  ++ optReleases s.pixel_shader
  ++ (s.pixel_shader_instances.map .releaseRef)
  ++ [.rebind (optRefs s.vertex_shader ++ s.vertex_shader_instances)]
  ++ optReleases s.vertex_shader
  ++ [.rebind (optRefs s.vertex_shader_constant_buffer)]
  ++ optReleases s.vertex_shader_constant_buffer
  ++ [.rebind (optRefs s.geometry_shader ++ s.geometry_shader_instances)]
  ++ optReleases s.geometry_shader
  ++ (s.vertex_shader_instances.map .releaseRef)
  ++ [.rebind []]
  ++ [.rebind (optRefs s.index_buffer)] ++ optReleases s.index_buffer
  ++ [.rebind (optRefs s.vertex_buffer)] ++ optReleases s.vertex_buffer
  ++ [.rebind (optRefs s.input_layout)] ++ optReleases s.input_layout

/-- The references released by `EndFrame`, in order. -/
def releasedReferences (s : PreviousD3DState) : List Nat :=
  (EndFrameRestoreTrace s).foldr
    (fun a acc => match a with
      | .releaseRef i => i :: acc
      | .rebind _ => acc) []

/-- A concrete captured frame state with pairwise distinct object identities,
one pixel-shader class instance (21), one vertex-shader class instance (22)
and one geometry-shader class instance (42). -/
def c3ExState : PreviousD3DState :=
  { rastizer_state := some 1, blend_state := some 2, depth_stencil_state := some 3
    pixel_shader_shader_resource := some 4, pixel_shader_sampler := some 5
    pixel_shader := some 6, pixel_shader_instances := [21]
    vertex_shader := some 7, vertex_shader_instances := [22]
    vertex_shader_constant_buffer := some 8
    geometry_shader := some 9, geometry_shader_instances := [42]
    index_buffer := some 10, vertex_buffer := some 11, input_layout := some 12 }

/-- Claim C3: false on the code. At a frame whose capture found a
geometry-shader class instance (object 42), EndFrame rebinds that instance in
the `GSSetShader` restore call but never releases it: every other captured
reference is released exactly once, while the acquired reference on object 42
is released zero times, a leak each frame. -/
theorem c3_geometry_shader_instance_leak :
    capturedReferences c3ExState = [1, 2, 3, 4, 5, 6, 21, 7, 22, 8, 9, 42, 10, 11, 12]
    ∧ releasedReferences c3ExState = [1, 2, 3, 4, 5, 6, 21, 7, 8, 9, 22, 10, 11, 12]
    ∧ RestoreAction.rebind [9, 42] ∈ EndFrameRestoreTrace c3ExState
    ∧ (releasedReferences c3ExState).count 42 = 0
    ∧ (capturedReferences c3ExState).count 42 = 1 := by
  refine ⟨rfl, rfl, ?_, rfl, rfl⟩
  decide

/-! ## Geometry cache (claim C8) -/

/-- The pointer-mixing hash used for geometry/texture handles, on 64-bit
`uintptr_t` arithmetic (wrap-around modulo 2^64; `~v` is the complement). -/
def HashPointer (inPtr : Nat) : Nat :=
  let m := 2 ^ 64
  let v0 := inPtr % m
  let v1 := ((m - 1 - v0) + v0 * 2 ^ 15) % m
  let v2 := v1 ^^^ v1 / 2 ^ 12
  let v3 := (v2 + v2 * 2 ^ 2) % m
  let v4 := v3 ^^^ v3 / 2 ^ 4
  let v5 := v4 * 2057 % m
  v5 ^^^ v5 / 2 ^ 16

structure DX11_GeometryData where
  vertex_buffer : Nat
  index_buffer : Nat
  index_count : Nat
  deriving DecidableEq

/-- `m_geometry_cache` (`unordered_map<uintptr_t, DX11_GeometryData>`) as an
association list with unique keys. -/
abbrev GeometryCache := List (Nat × DX11_GeometryData)

def cacheContains : GeometryCache → Nat → Bool
  | [], _ => false
  | kv :: rest, k => kv.1 == k || cacheContains rest k

/-- `unordered_map::emplace`: inserts only when the key is absent. -/
def cacheEmplace (c : GeometryCache) (k : Nat) (v : DX11_GeometryData) : GeometryCache :=
  if cacheContains c k then c else c ++ [(k, v)]

/-- `unordered_map::erase(key)`: removes the single entry with that key. -/
def cacheErase : GeometryCache → Nat → GeometryCache
  | [], _ => []
  | kv :: rest, k => if kv.1 = k then rest else kv :: cacheErase rest k

/-- `RenderInterface_DX11::CompileGeometry`: creates the vertex and index
buffers (identified by `vertex_buffer_id`/`index_buffer_id`; the `ok` flags
model the success of the two `CreateBuffer` calls), computes the handle as
`HashPointer` of the index-buffer address, emplaces the geometry data under
that handle and returns the handle; on failure returns handle 0 and leaves
the cache unchanged. -/
def CompileGeometry (cache : GeometryCache) (vertex_buffer_ok : Bool)
    (vertex_buffer_id : Nat) (index_buffer_ok : Bool) (index_buffer_id : Nat)
    (index_count : Nat) : Option Nat × GeometryCache :=
  if !vertex_buffer_ok then (none, cache)
  else if !index_buffer_ok then (none, cache)
  else
    let handleId := HashPointer index_buffer_id
    (some handleId,
      cacheEmplace cache handleId ⟨vertex_buffer_id, index_buffer_id, index_count⟩)

/-- `RenderInterface_DX11::ReleaseGeometry`: when the handle is present the
buffers are released and the entry is erased; otherwise only a warning is
logged. -/
def ReleaseGeometry (cache : GeometryCache) (handle : Nat) : GeometryCache :=
  if cacheContains cache handle then cacheErase cache handle else cache

theorem cacheContains_append_singleton (c : GeometryCache) (k : Nat)
    (v : DX11_GeometryData) : cacheContains (c ++ [(k, v)]) k = true := by
  induction c with
  | nil => simp [cacheContains]
  | cons kv rest ih => simp [cacheContains, ih]

theorem cacheErase_append_singleton (c : GeometryCache) (k : Nat)
    (v : DX11_GeometryData) (h : cacheContains c k = false) :
    cacheErase (c ++ [(k, v)]) k = c := by
  induction c with
  | nil => simp [cacheErase]
  | cons kv rest ih =>
    simp only [cacheContains, Bool.or_eq_false_iff, beq_eq_false_iff_ne, ne_eq] at h
    simp only [List.cons_append, cacheErase, if_neg h.1]
    rw [List.append_eq, ih h.2]

/-- Claim C8: when both buffer creations succeed and the new handle
(`HashPointer` of the index-buffer address) does not collide with a live
cache key, CompileGeometry immediately followed by ReleaseGeometry of the
returned handle leaves the geometry cache size unchanged. -/
theorem c8_geometry_roundtrip (cache : GeometryCache)
    (vertex_buffer_id index_buffer_id index_count : Nat)
    (hfresh : cacheContains cache (HashPointer index_buffer_id) = false) :
    (CompileGeometry cache true vertex_buffer_id true index_buffer_id index_count).1
        = some (HashPointer index_buffer_id)
    ∧ (ReleaseGeometry
        (CompileGeometry cache true vertex_buffer_id true index_buffer_id index_count).2
        (HashPointer index_buffer_id)).length
        = cache.length := by
  refine ⟨by simp [CompileGeometry], ?_⟩
  have hc : (CompileGeometry cache true vertex_buffer_id true index_buffer_id index_count).2
      = cache ++ [(HashPointer index_buffer_id,
          ⟨vertex_buffer_id, index_buffer_id, index_count⟩)] := by
    simp [CompileGeometry, cacheEmplace, hfresh]
  rw [hc, ReleaseGeometry, if_pos (cacheContains_append_singleton cache _ _),
    cacheErase_append_singleton cache _ _ hfresh]

theorem c8_geometry_roundtrip_witness :
    cacheContains [] (HashPointer 2) = false
    ∧ ((CompileGeometry [] true 1 true 2 6).1 = some (HashPointer 2)
        ∧ (ReleaseGeometry (CompileGeometry [] true 1 true 2 6).2
            (HashPointer 2)).length = ([] : GeometryCache).length) :=
  ⟨rfl, c8_geometry_roundtrip [] 1 2 6 rfl⟩

/-! ## TGA texture loading (claim C9) -/

/-- Read one byte of the file buffer as an unsigned value. -/
def readU8 (b : List Nat) (i : Nat) : Nat := b.getD i 0 % 256

/-- Read one byte as a signed `char`. -/
def readS8 (b : List Nat) (i : Nat) : Int :=
  let v := readU8 b i
  if v < 128 then (v : Int) else (v : Int) - 256

/-- Read a little-endian signed `short int`. -/
def readS16 (b : List Nat) (i : Nat) : Int :=
  let v := readU8 b i + 256 * readU8 b (i + 1)
  if v < 32768 then (v : Int) else (v : Int) - 65536

/-- The byte-packed 18-byte `TGAHeader` struct, `memcpy`-ed from the start of
the file buffer. -/
structure TGAHeader where
  idLength : Int
  colourMapType : Int
  dataType : Int
  colourMapOrigin : Int
  colourMapLength : Int
  colourMapDepth : Int
  xOrigin : Int
  yOrigin : Int
  width : Int
  height : Int
  bitsPerPixel : Int
  imageDescriptor : Int
  deriving DecidableEq

def parseTGAHeader (b : List Nat) : TGAHeader :=
  { idLength := readS8 b 0
    colourMapType := readS8 b 1
    dataType := readS8 b 2
    colourMapOrigin := readS16 b 3
    colourMapLength := readS16 b 5
    colourMapDepth := readS8 b 7
    xOrigin := readS16 b 8
    yOrigin := readS16 b 10
    width := readS16 b 12
    height := readS16 b 14
    bitsPerPixel := readS8 b 16
    imageDescriptor := readS8 b 17 }

/-- The caches of the renderer instance that a texture load could touch:
the geometry cache and the set of created texture views. -/
structure RendererCaches where
  geometry_cache : GeometryCache
  textures : List Nat
  deriving DecidableEq

/-- `RenderInterface_DX11::GenerateTexture` on the success path: creates a
GPU texture and its sampleable view (identified by `fresh_view`) and returns
the view as the handle. No cache map is involved; we record the created view
so cache mutation is observable. -/
def GenerateTexture (caches : RendererCaches) (fresh_view : Nat) :
    Nat × RendererCaches :=
  (fresh_view, { caches with textures := caches.textures ++ [fresh_view] })

/-- One decoded output pixel of the TGA decode loop: BGR to RGB swap, Y-flip
when descriptor bit 32 is clear, alpha premultiplication for 32-bit data.
Returns the four byte writes (destination index, value) issued for source
pixel (x, y). -/
def tgaPixelWrites (src : List Nat) (w h color_mode : Nat) (top_down : Bool)
    (y x : Nat) : List (Nat × Nat) :=
  let read_index := y * w * color_mode + x * color_mode
  let row_start := if top_down then y * w * color_mode else (h - y - 1) * w * 4
  let write_index := row_start + x * 4
  let r := src.getD (read_index + 2) 0
  let g := src.getD (read_index + 1) 0
  let b := src.getD read_index 0
  if color_mode = 4 then
    let a := src.getD (read_index + 3) 0
    [(write_index, r * a / 255), (write_index + 1, g * a / 255),
     (write_index + 2, b * a / 255), (write_index + 3, a)]
  else
    [(write_index, r), (write_index + 1, g), (write_index + 2, b),
     (write_index + 3, 255)]

/-- The full decode loop of the TGA fallback path as the list of byte writes
into the destination image, in loop order. -/
def tgaDecodeWrites (src : List Nat) (w h color_mode : Nat) (top_down : Bool) :
    List (Nat × Nat) :=
  (List.range h).flatMap (fun y =>
    (List.range w).flatMap (fun x => tgaPixelWrites src w h color_mode top_down y x))

/-- The TGA fallback path of `RenderInterface_DX11::LoadTexture` (no external
loader registered), given the bytes of the opened file. Returns the texture
handle with the stored dimensions, or `none` on failure, plus the renderer
caches (`fresh_view` identifies the texture view a successful
`GenerateTexture` would create). The C++ returns `false` (handle 0) on
failure; no exception paths exist. -/
def LoadTexture (buffer : List Nat) (caches : RendererCaches) (fresh_view : Nat) :
    Option (Nat × Int × Int) × RendererCaches :=
  if buffer.length ≤ 18 then (none, caches)
  else
    let header := parseTGAHeader buffer
    let color_mode := header.bitsPerPixel.tdiv 8
    if header.dataType ≠ 2 then (none, caches)
    else if color_mode < 3 then (none, caches)
    else
      let image_src := buffer.drop 18
      let top_down := header.imageDescriptor.toNat % 64 / 32 = 1
      let writes := tgaDecodeWrites image_src header.width.toNat header.height.toNat
        color_mode.toNat top_down
      let r := GenerateTexture caches fresh_view
      (some (r.1, header.width, header.height), r.2)

/-- Claim C9: for every file buffer that passes the size check but whose
header dataType byte differs from 2, the TGA fallback of LoadTexture fails
(returns no handle) and leaves the geometry cache and the created-texture set
untouched. The embedding is a total function, so no exception is possible on
this path. -/
theorem c9_tga_datatype_failure (buffer : List Nat) (caches : RendererCaches)
    (fresh_view : Nat) (hlen : 18 < buffer.length)
    (hdt : (parseTGAHeader buffer).dataType ≠ 2) :
    LoadTexture buffer caches fresh_view = (none, caches) := by
  unfold LoadTexture
  rw [if_neg (by omega), if_pos hdt]

def c9ExBuffer : List Nat := List.replicate 19 0

theorem c9_tga_datatype_failure_witness :
    18 < c9ExBuffer.length
    ∧ (parseTGAHeader c9ExBuffer).dataType ≠ 2
    ∧ LoadTexture c9ExBuffer ⟨[], []⟩ 5 = (none, ⟨[], []⟩) :=
  ⟨by decide, by decide, c9_tga_datatype_failure c9ExBuffer ⟨[], []⟩ 5 (by decide) (by decide)⟩
